import Mathlib

/-!
# NexusCoders WhatsApp bot: start-up glue (`index.js`, `config.js`)

A shallow embedding of the two source files.  JavaScript values are modelled
as finite trees, the external libraries (mongoose, Baileys, `Buffer`, `JSON`,
the logger and the message handler) as a record of their observable results,
and every function of `index.js` as a computation that produces a trace of
effects together with an outcome (returned, threw, or ended the process).
-/

namespace NexusBot

/-! ## JavaScript values -/

/-- JavaScript values as finite trees: what `JSON.parse` returns and what the
protocol library hands to the callbacks.  Numbers are the integral ones (status
codes, ports); `bigint` is a BigInt; `str` is a string of well-formed text and
`surrogate` the string of one UTF-16 code unit that is a lone surrogate; an
object is the list of its own enumerable properties in insertion order, with
distinct keys. -/
inductive JSValue where
  | undefined : JSValue
  | null : JSValue
  | bool (b : Bool) : JSValue
  | num (n : Int) : JSValue
  | bigint (n : Int) : JSValue
  | str (s : String) : JSValue
  | surrogate (unit : Nat) : JSValue
  | arr (xs : List JSValue) : JSValue
  | obj (ps : List (String × JSValue)) : JSValue

/-- First value stored under key `k` in a property list. -/
def lookupProp : List (String × JSValue) → String → Option JSValue
  | [], _ => none
  | (k', v) :: rest, k => if k' = k then some v else lookupProp rest k

/-- Property read `v.k` on a value that is neither `undefined` nor `null`, for
the keys that the program reads this way (`connection`, `lastDisconnect`,
`error`, `output`, `statusCode`, `ownerNumber`): an object yields its own
property or `undefined`; arrays and primitives have no property of these
names. -/
def getProp (v : JSValue) (k : String) : JSValue :=
  match v with
  | .obj ps => (lookupProp ps k).getD .undefined
  | _ => .undefined

/-- Nullish test: `v === undefined || v === null`. -/
def isNullish : JSValue → Bool
  | .undefined => true
  | .null => true
  | _ => false

/-- Optional chaining `v?.k`. -/
def optChain (v : JSValue) (k : String) : JSValue :=
  if isNullish v then .undefined else getProp v k

/-- Strict equality `a === b`.  Objects and arrays are compared by identity in
JavaScript; the program only compares against primitive constants, for which a
freshly received object is never identical. -/
def strictEq : JSValue → JSValue → Bool
  | .undefined, .undefined => true
  | .null, .null => true
  | .bool a, .bool b => a == b
  | .num a, .num b => a == b
  | .bigint a, .bigint b => a == b
  | .str a, .str b => a == b
  | .surrogate a, .surrogate b => a == b
  | _, _ => false

mutual
/-- String conversion `String(v)`, as done by `+` with a string operand and by
template literals.  A lone surrogate, which no string here can hold, is shown
as U+FFFD; the program converts only `config.ownerNumber`, `PORT` and a
boolean, none of which is one. -/
def toStr : JSValue → String
  | .undefined => "undefined"
  | .null => "null"
  | .bool true => "true"
  | .bool false => "false"
  | .num n => toString n
  | .bigint n => toString n
  | .str s => s
  | .surrogate _ => "\uFFFD"
  | .arr xs => joinStr xs
  | .obj _ => "[object Object]"
/-- Elements of an array joined by commas (`Array.prototype.join`). -/
def joinStr : List JSValue → String
  | [] => ""
  | [x] => elemStr x
  | x :: y :: rest => elemStr x ++ "," ++ joinStr (y :: rest)
/-- String conversion of an array element: `undefined` and `null` are empty. -/
def elemStr : JSValue → String
  | .undefined => ""
  | .null => ""
  | .bool true => "true"
  | .bool false => "false"
  | .num n => toString n
  | .bigint n => toString n
  | .str s => s
  | .surrogate _ => "\uFFFD"
  | .arr xs => joinStr xs
  | .obj _ => "[object Object]"
end

mutual
/-- Whether a value is or holds a BigInt: `JSON.stringify` throws a `TypeError`
on such a value. -/
def holdsBigInt : JSValue → Bool
  | .bigint _ => true
  | .arr xs => anyBigInt xs
  | .obj ps => anyPropBigInt ps
  | _ => false
/-- Whether an element of a list is or holds a BigInt. -/
def anyBigInt : List JSValue → Bool
  | [] => false
  | x :: rest => holdsBigInt x || anyBigInt rest
/-- Whether a property value of a list is or holds a BigInt. -/
def anyPropBigInt : List (String × JSValue) → Bool
  | [] => false
  | (_, v) :: rest => holdsBigInt v || anyPropBigInt rest
end

/-- Value of `process.env.NAME`: a string when set, `undefined` otherwise. -/
def envValue : Option String → JSValue
  | some s => .str s
  | none => .undefined

/-! ## Environment, external libraries, effects -/

/-- The environment variables read by the program. -/
structure Env where
  MONGODB_URI : Option String
  OWNER_NUMBER : Option String
  PORT : Option String
  SESSION_DATA : Option String

/-- Key of a WhatsApp message as delivered by the protocol library. -/
structure WAMessageKey where
  remoteJid : Option String
  fromMe : Option Bool
  id : Option String

/-- A WhatsApp message as delivered by the protocol library. -/
structure WAMessage where
  key : WAMessageKey
  message : JSValue

/-- Payload of the `messages.upsert` event. -/
structure UpsertEvent where
  messages : List WAMessage
  type : String

/-- An incoming HTTP request, as parsed by the server. -/
structure Request where
  method : String
  url : String
  headers : List (String × String)
  body : String

/-- What the `http.Server` of Node does with an incoming request: it emits
`request`, so that the request listener runs; it answers by itself with a
status and no body (417 for an `Expect` header other than `100-continue`, 400
for a request it refuses); or it closes the connection without an answer (a
`CONNECT` request, for which the program registers no listener). -/
inductive Route where
  | listener
  | answered (statusCode : Nat)
  | closed

/-- What the client of an HTTP request gets: a response, or a closed
connection. -/
inductive Answer where
  | response (statusCode : Nat) (body : String)
  | closed

/-- Levels of the logger. -/
inductive LogLevel where
  | info | warn | error

/-- The callbacks that `connectToWhatsApp` hands to `sock.ev.on`. -/
inductive Listener where
  | connectionUpdate | messagesUpsert | saveCreds

/-- Observable effects: calls into the libraries and the runtime, with their
arguments.  Logger calls carry their arguments rendered as strings (an error
object is rendered by its message). -/
inductive Effect where
  | mongooseConnect (uri : String)
  | log (level : LogLevel) (args : List String)
  | processExit (code : Nat)
  | useMultiFileAuthState (dir : String)
  | makeWASocket (creds keys : JSValue)
  | evOn (event : String) (l : Listener)
  | connectToWhatsApp
  | sendMessage (jid text : String)
  | messageHandler (msg : WAMessage)
  | listen (port : JSValue) (host : String)
  | setInterval (ms : Nat)
  | httpGet (url : String)
  | processOn (event : String)

/-- Results of the calls that leave the program; a call either returns (its
promise resolves) or throws (its promise rejects) with a message.
`useMultiFileAuthState` yields the creds and keys of the state it creates,
`bufferFromBase64 s` is `Buffer.from(s, 'base64').toString()`, `jsonStringify v`
is the text that `JSON.stringify(v)` contributes to a string concatenation, or
the error it throws (on a BigInt, on an object that refers back to itself),
`loggedOut` is the numeric constant `DisconnectReason.loggedOut`, and
`httpRoute` is what the `http.Server` of Node does with an incoming request
before any listener of the program runs. -/
structure Lib where
  mongooseConnect : String → Except String Unit
  useMultiFileAuthState : String → Except String (JSValue × JSValue)
  bufferFromBase64 : String → String
  jsonParse : String → Except String JSValue
  jsonStringify : JSValue → Except String String
  makeWASocket : JSValue → JSValue → Except String Unit
  loggedOut : Int
  sendMessage : String → String → Except String Unit
  messageHandler : WAMessage → Except String Unit
  listen : JSValue → String → Except String Unit
  httpGet : String → Except String Unit
  httpRoute : Request → Route

/-- How a computation ends: it returns, throws, or ends the process. -/
inductive Outcome (α : Type) where
  | returned (a : α)
  | threw (e : String)
  | exited (code : Nat)

/-- A computation: the effects it performed, in order, and how it ended. -/
structure Run (α : Type) where
  trace : List Effect
  outcome : Outcome α

namespace Run

/-- Return a value without any effect. -/
def ret {α : Type} (a : α) : Run α := ⟨[], .returned a⟩

/-- Sequencing: the continuation runs only when the first part returned. -/
def andThen {α β : Type} (m : Run α) (f : α → Run β) : Run β :=
  match m.outcome with
  | .returned a => ⟨m.trace ++ (f a).trace, (f a).outcome⟩
  | .threw e => ⟨m.trace, .threw e⟩
  | .exited c => ⟨m.trace, .exited c⟩

/-- An effect that cannot fail. -/
def emit (e : Effect) : Run Unit := ⟨[e], .returned ()⟩

/-- An effect whose result is decided outside the program. -/
def call {α : Type} (e : Effect) (r : Except String α) : Run α :=
  match r with
  | .ok a => ⟨[e], .returned a⟩
  | .error msg => ⟨[e], .threw msg⟩

/-- A pure library function that may throw. -/
def eval {α : Type} (r : Except String α) : Run α :=
  match r with
  | .ok a => ⟨[], .returned a⟩
  | .error msg => ⟨[], .threw msg⟩

/-- The call `process.exit(code)`: nothing runs after it. -/
def exit {α : Type} (code : Nat) : Run α := ⟨[.processExit code], .exited code⟩

/-- The statement `try body catch (e) handler`. -/
def tryCatch {α : Type} (body : Run α) (handler : String → Run α) : Run α :=
  match body.outcome with
  | .threw e => ⟨body.trace ++ (handler e).trace, (handler e).outcome⟩
  | _ => body

/-- A logger call. -/
def log (level : LogLevel) (args : List String) : Run Unit := emit (.log level args)

end Run

instance : Monad Run where
  pure := Run.ret
  bind := Run.andThen

/-! ## `config.js` -/

/-- The object exported by `config.js`. -/
def config (env : Env) : JSValue :=
  .obj [
    ("name", .str "NexusCoders-MD"),
    ("owner", envValue env.OWNER_NUMBER),
    ("timezone", .str "Africa/lagos"),
    ("autoReconnect", .bool true),
    ("autoReconnectInterval", .num 5000),
    ("logLevel", .str "info"),
    ("mongodb", .obj [
      ("uri", envValue env.MONGODB_URI),
      ("options", .obj [
        ("useNewUrlParser", .bool true),
        ("useUnifiedTopology", .bool true)])])]

/-! ## `index.js`: constants -/

/-- The constant `MONGODB_URI = process.env.MONGODB_URI || ''`. -/
def MONGODB_URI (env : Env) : String :=
  match env.MONGODB_URI with
  | some s => if s ≠ "" then s else ""
  | none => ""

/-- The constant `PORT = process.env.PORT || 3000`: the string of the
environment when it is set and not empty, the number 3000 otherwise. -/
def PORT (env : Env) : JSValue :=
  match env.PORT with
  | some s => if s ≠ "" then .str s else .num 3000
  | none => .num 3000

/-- The constant `SESSION_DIR`. -/
def SESSION_DIR : String := "./auth_info_baileys"

/-- The constant `SESSION_DATA = process.env.SESSION_DATA`. -/
def SESSION_DATA (env : Env) : Option String := env.SESSION_DATA

/-! ## The auth state and `Object.assign` -/

/-- The object `state` returned by `useMultiFileAuthState`: the two own
properties `creds` and `keys` it is created with, the own properties added
later (in insertion order), and its prototype: `none` while it is still
`Object.prototype`, `some v` once the `__proto__` setter has replaced it. -/
structure AuthState where
  creds : JSValue
  keys : JSValue
  extra : List (String × JSValue)
  proto : Option JSValue

/-- The state object literal `{ creds, keys }` as the library creates it. -/
def AuthState.fresh (creds keys : JSValue) : AuthState := ⟨creds, keys, [], none⟩

/-- Own property of the state stored under key `k`, if any. -/
def AuthState.own (st : AuthState) (k : String) : Option JSValue :=
  if k = "creds" then some st.creds
  else if k = "keys" then some st.keys
  else lookupProp st.extra k

/-- Replace the value stored under an existing key of a property list. -/
def replaceProp : List (String × JSValue) → String → JSValue → List (String × JSValue)
  | [], _, _ => []
  | (k', v') :: rest, k, v =>
      if k' = k then (k', v) :: rest else (k', v') :: replaceProp rest k v

/-- Whether a value is an object (or array) or `null`: what the `__proto__`
setter accepts as a new prototype. -/
def isObjectOrNull : JSValue → Bool
  | .null => true
  | .arr _ => true
  | .obj _ => true
  | _ => false

/-- Whether an assignment to `__proto__` on the state reaches the accessor of
`Object.prototype`: it does unless the prototype chain was cut by `null` or a
parsed object on the chain carries an own data property of that name. -/
def AuthState.protoAccessor (st : AuthState) : Bool :=
  match st.proto with
  | none => true
  | some .null => false
  | some (.obj ps) => (lookupProp ps "__proto__").isNone
  | some _ => true

/-- The assignment `state[k] = v` (the `[[Set]]` operation of the language): an
own property is overwritten; `__proto__` goes to the setter inherited from
`Object.prototype`, which replaces the prototype by an object or `null` and
ignores every other value; any other key becomes a new own property. -/
def AuthState.set (st : AuthState) (k : String) (v : JSValue) : AuthState :=
  if k = "creds" then { st with creds := v }
  else if k = "keys" then { st with keys := v }
  else if (lookupProp st.extra k).isSome then { st with extra := replaceProp st.extra k v }
  else if k = "__proto__" ∧ st.protoAccessor = true then
    (if isObjectOrNull v then { st with proto := some v } else st)
  else { st with extra := st.extra ++ [(k, v)] }

/-- Index keys of a list: `0`, `1`, ... paired with the elements. -/
def indexed : List JSValue → Nat → List (String × JSValue)
  | [], _ => []
  | x :: rest, i => (toString i, x) :: indexed rest (i + 1)

/-- The UTF-16 code units of a text as one-unit strings: a character of the
Basic Multilingual Plane is one unit, any other is a pair of surrogates. -/
def codeUnits : List Char → List JSValue
  | [] => []
  | c :: rest =>
      if c.toNat < 65536 then JSValue.str (String.singleton c) :: codeUnits rest
      else JSValue.surrogate (55296 + (c.toNat - 65536) / 1024)
        :: JSValue.surrogate (56320 + (c.toNat - 65536) % 1024) :: codeUnits rest

/-- Own enumerable properties of a source of `Object.assign`, in order: the
properties of an object, the elements of an array, the code units of a string,
nothing for the other primitives. -/
def ownEntries : JSValue → List (String × JSValue)
  | .obj ps => ps
  | .arr xs => indexed xs 0
  | .str s => indexed (codeUnits s.data) 0
  | .surrogate unit => [("0", .surrogate unit)]
  | _ => []

/-- The call `Object.assign(state, source)`: every own enumerable property of
the source is assigned to the state, in order. -/
def objectAssign (st : AuthState) (source : JSValue) : AuthState :=
  (ownEntries source).foldl (fun acc kv => acc.set kv.1 kv.2) st

/-! ## `index.js`: functions -/

/-- The function `initializeMongoStore`. -/
def initializeMongoStore (lib : Lib) (env : Env) : Run Unit :=
  Run.tryCatch
    (do
      Run.call (.mongooseConnect (MONGODB_URI env)) (lib.mongooseConnect (MONGODB_URI env))
      Run.log .info ["Connected to MongoDB"])
    (fun error => do
      Run.log .error ["Failed to connect to MongoDB:", error]
      Run.exit 1)

/-- Lines 31-39 of `connectToWhatsApp`: the credential bootstrap from
`SESSION_DATA`.  Returns the state object after the block. -/
def sessionBootstrap (lib : Lib) (env : Env) (state : AuthState) : Run AuthState :=
  match SESSION_DATA env with
  | some data =>
      if data ≠ "" then
        Run.tryCatch
          (do
            let sessionData ← Run.eval (lib.jsonParse (lib.bufferFromBase64 data))
            pure (objectAssign state sessionData))
          (fun error => do
            Run.log .error ["Error parsing SESSION_DATA:", error]
            pure state)
      else pure state
  | none => pure state

/-- The function `connectToWhatsApp`, up to the return of the socket.  The
key store handed to the socket wraps `state.keys`; the effect records the
wrapped value. -/
def connectToWhatsApp (lib : Lib) (env : Env) : Run Unit := do
  let loaded ← Run.call (.useMultiFileAuthState SESSION_DIR) (lib.useMultiFileAuthState SESSION_DIR)
  let state ← sessionBootstrap lib env (AuthState.fresh loaded.1 loaded.2)
  Run.call (.makeWASocket state.creds state.keys) (lib.makeWASocket state.creds state.keys)
  Run.emit (.evOn "connection.update" .connectionUpdate)
  Run.emit (.evOn "messages.upsert" .messagesUpsert)
  Run.emit (.evOn "creds.update" .saveCreds)

/-- The value `lastDisconnect?.error?.output?.statusCode` of an update. -/
def statusCodeOf (update : JSValue) : JSValue :=
  optChain (optChain (optChain (getProp update "lastDisconnect") "error") "output") "statusCode"

/-- The callback of `connection.update`.  The text of the log is built, and
`JSON.stringify` called, before the re-entrant call and outside any `try`. -/
def connectionUpdate (lib : Lib) (env : Env) (update : JSValue) : Run Unit :=
  if isNullish update then Run.eval (.error "TypeError: cannot destructure") else
  let connection := getProp update "connection"
  let lastDisconnect := getProp update "lastDisconnect"
  if strictEq connection (.str "close") then
    let shouldReconnect :=
      !(strictEq (optChain (optChain (optChain lastDisconnect "error") "output") "statusCode")
          (.num lib.loggedOut))
    do
      let text ← Run.eval (lib.jsonStringify (optChain lastDisconnect "error"))
      Run.log .info ["Connection closed due to " ++ text
        ++ ", reconnecting " ++ toStr (.bool shouldReconnect)]
      if shouldReconnect then Run.emit .connectToWhatsApp else pure ()
  else if strictEq connection (.str "open") then
    do
      Run.log .info ["Connected to WhatsApp"]
      Run.tryCatch
        (Run.call
          (.sendMessage (toStr (getProp (config env) "ownerNumber") ++ "@s.whatsapp.net")
            "NexusCoders Bot is connected and ready to use!")
          (lib.sendMessage (toStr (getProp (config env) "ownerNumber") ++ "@s.whatsapp.net")
            "NexusCoders Bot is connected and ready to use!"))
        (fun error => Run.log .error ["Error sending ready message:", error])
  else pure ()

/-- The test `!msg.key.fromMe`: an absent flag counts as false. -/
def notFromMe (msg : WAMessage) : Bool :=
  match msg.key.fromMe with
  | some true => false
  | _ => true

/-- The loop `for (const msg of m.messages)` of the `messages.upsert` callback. -/
def dispatchMessages (lib : Lib) : List WAMessage → Run Unit
  | [] => pure ()
  | msg :: rest => do
      (if notFromMe msg then
        Run.tryCatch
          (Run.call (.messageHandler msg) (lib.messageHandler msg))
          (fun error => Run.log .error ["Error in message handler:", error])
      else pure ())
      dispatchMessages lib rest

/-- The callback of `messages.upsert`. -/
def messagesUpsert (lib : Lib) (m : UpsertEvent) : Run Unit :=
  if m.type = "notify" then dispatchMessages lib m.messages else pure ()

/-- The response object of the HTTP server: the status to send, whether the
response may carry a body, the body written so far, and whether it was ended. -/
structure Response where
  statusCode : Nat
  hasBody : Bool
  body : String
  ended : Bool

/-- The response object that the server creates for a request: status 200 by
default, nothing written yet, and no body allowed in answer to `HEAD`. -/
def Response.forRequest (req : Request) : Response :=
  ⟨200, !(req.method == "HEAD"), "", false⟩

/-- The method `res.writeHead(code)`: a status 1xx, 204 or 304 forbids a body. -/
def Response.writeHead (res : Response) (code : Nat) : Response :=
  { res with
    statusCode := code,
    hasBody := res.hasBody && !(code == 204 || code == 304 || (100 ≤ code && code ≤ 199)) }

/-- The method `res.end(data)`: the data is sent only if the response may
carry a body. -/
def Response.finish (res : Response) (data : String) : Response :=
  { res with body := (if res.hasBody then res.body ++ data else res.body), ended := true }

/-- The request listener given to `http.createServer`. -/
def requestListener (_req : Request) (res : Response) : Response :=
  (res.writeHead 200).finish "NexusCoders WhatsApp bot is running!"

/-- The constant `server = http.createServer(listener)`, as its clients see
it: a request that the server hands to the listener gets the status and body
that the listener wrote. -/
def server (lib : Lib) (req : Request) : Answer :=
  match lib.httpRoute req with
  | .listener =>
      .response (requestListener req (Response.forRequest req)).statusCode
        (requestListener req (Response.forRequest req)).body
  | .answered statusCode => .response statusCode ""
  | .closed => .closed

/-- The function `startServer`: the call of `server.listen`. -/
def startServer (lib : Lib) (env : Env) : Run Unit :=
  Run.call (.listen (PORT env) "0.0.0.0") (lib.listen (PORT env) "0.0.0.0")

/-- The callback of `server.listen`. -/
def listening (env : Env) : Run Unit :=
  Run.log .info ["Server running on port " ++ toStr (PORT env)]

/-- The period given to `setInterval`. -/
def keepAlivePeriod : Nat := 5 * 60 * 1000

/-- The function `setupKeepAlive`. -/
def setupKeepAlive : Run Unit :=
  Run.emit (.setInterval keepAlivePeriod)

/-- The timer callback of `setupKeepAlive`: one firing. -/
def keepAliveTick (lib : Lib) (env : Env) : Run Unit :=
  Run.call (.httpGet ("http://localhost:" ++ toStr (PORT env)))
    (lib.httpGet ("http://localhost:" ++ toStr (PORT env)))

/-- The response callback of the keep-alive request, on the status code of
the response. -/
def keepAliveResponse (statusCode : Nat) : Run Unit :=
  if statusCode = 200 then Run.log .info ["Keep-alive ping successful"]
  else Run.log .warn ["Keep-alive ping failed"]

/-- The `error` callback of the keep-alive request. -/
def keepAliveError (err : String) : Run Unit :=
  Run.log .error ["Keep-alive error:", err]

/-- What the keep-alive request logs when it is settled by an answer: the
response callback on a response, the `error` callback on a closed connection. -/
def keepAliveSettled : Answer → Run Unit
  | .response statusCode _ => keepAliveResponse statusCode
  | .closed => keepAliveError "socket hang up"

/-- The function `main`. -/
def main (lib : Lib) (env : Env) : Run Unit :=
  Run.tryCatch
    (do
      initializeMongoStore lib env
      connectToWhatsApp lib env
      startServer lib env
      setupKeepAlive
      Run.emit (.processOn "unhandledRejection")
      Run.emit (.processOn "uncaughtException")
      Run.emit (.processOn "SIGINT"))
    (fun error => do
      Run.log .error ["Error in main function:", error]
      Run.exit 1)

/-! ## Observations on traces -/

/-- Number of re-entrant calls of `connectToWhatsApp` in a trace. -/
def reconnects : List Effect → Nat
  | [] => 0
  | .connectToWhatsApp :: rest => reconnects rest + 1
  | _ :: rest => reconnects rest

/-- The messages sent in a trace: recipient and text, in order. -/
def sent : List Effect → List (String × String)
  | [] => []
  | .sendMessage jid text :: rest => (jid, text) :: sent rest
  | _ :: rest => sent rest

/-- The messages on which the message handler was invoked, in order. -/
def handled : List Effect → List WAMessage
  | [] => []
  | .messageHandler msg :: rest => msg :: handled rest
  | _ :: rest => handled rest

/-- The listeners registered on the socket, by event name, in order. -/
def listeners : List Effect → List String
  | [] => []
  | .evOn event _ :: rest => event :: listeners rest
  | _ :: rest => listeners rest

/-! ## Sample inputs -/

/-- A text in lower case. -/
def lowerCase (t : String) : String := ⟨t.data.map Char.toLower⟩

/-- Credentials and key store used to evaluate the program. -/
def sampleCreds : JSValue := .obj [("registrationId", .num 7)]

/-- Key store used to evaluate the program. -/
def sampleKeys : JSValue := .obj [("store", .str "signal")]

/-- A library in which every call to the database, the protocol library and
the network succeeds.  Decoding and parsing are given on the inputs used below:
`e30=` is the base64 text of the empty object, `eyJfX3Byb3RvX18iOjF9` that of
the object with the one key `__proto__` and value 1, `eyJjcmVkcyI6MX0=` that of
the object with the one key `creds` and value 1; the text `oops` is not JSON.
`JSON.stringify` throws on a value that holds a BigInt; its text is given for
`undefined` and for an error object with an output and a status code, and left
as `null` elsewhere.  The server hands a request to the listener unless it is a
`CONNECT` (closed) or carries an `Expect` header other than `100-continue`
(answered 417). -/
def sampleLib : Lib where
  mongooseConnect := fun _ => .ok ()
  useMultiFileAuthState := fun _ => .ok (sampleCreds, sampleKeys)
  bufferFromBase64 := fun s =>
    if s = "e30=" then "\x7b\x7d"
    else if s = "eyJfX3Byb3RvX18iOjF9" then "\x7b\"__proto__\":1\x7d"
    else if s = "eyJjcmVkcyI6MX0=" then "\x7b\"creds\":1\x7d"
    else if s = "b29wcw==" then "oops"
    else ""
  jsonParse := fun t =>
    if t = "\x7b\x7d" then .ok (.obj [])
    else if t = "\x7b\"__proto__\":1\x7d" then .ok (.obj [("__proto__", .num 1)])
    else if t = "\x7b\"creds\":1\x7d" then .ok (.obj [("creds", .num 1)])
    else .error "Unexpected token"
  jsonStringify := fun v =>
    if holdsBigInt v then .error "TypeError: Do not know how to serialize a BigInt"
    else match v with
      | .undefined => .ok "undefined"
      | .obj [("output", .obj [("statusCode", .num n)])] =>
          .ok ("\x7b\"output\":\x7b\"statusCode\":" ++ toString n ++ "\x7d\x7d")
      | _ => .ok "null"
  makeWASocket := fun _ _ => .ok ()
  loggedOut := 401
  sendMessage := fun _ _ => .ok ()
  messageHandler := fun _ => .ok ()
  listen := fun _ _ => .ok ()
  httpGet := fun _ => .ok ()
  httpRoute := fun req =>
    if req.method = "CONNECT" then .closed
    else match req.headers.find? (fun h => lowerCase h.1 == "expect") with
      | some h => if lowerCase h.2 = "100-continue" then .listener else .answered 417
      | none => .listener

/-- An environment with an owner number and nothing else set. -/
def sampleEnv : Env := ⟨none, some "2348012345678", none, none⟩

/-- A close with status code 500. -/
def sampleClose : JSValue :=
  .obj [("connection", .str "close"),
        ("lastDisconnect", .obj [("error", .obj [("output", .obj [("statusCode", .num 500)])])])]

/-- A close with the logged-out status code 401. -/
def sampleLoggedOut : JSValue :=
  .obj [("connection", .str "close"),
        ("lastDisconnect", .obj [("error", .obj [("output", .obj [("statusCode", .num 401)])])])]

/-- A close with status code 500 whose error object also holds a BigInt. -/
def sampleBigIntClose : JSValue :=
  .obj [("connection", .str "close"),
        ("lastDisconnect", .obj [("error",
          .obj [("output", .obj [("statusCode", .num 500)]), ("data", .bigint 10)])])]

/-- The keep-alive request: a `GET` of the root path. -/
def samplePing : Request := ⟨"GET", "/", [("Host", "localhost:3000")], ""⟩

/-- A `HEAD` request. -/
def sampleHead : Request := ⟨"HEAD", "/", [("Host", "localhost:3000")], ""⟩

/-- A `GET` with an `Expect` header that the server does not know. -/
def sampleExpect : Request :=
  ⟨"GET", "/", [("Host", "localhost:3000"), ("Expect", "nonsense")], ""⟩

/-- A `CONNECT` request. -/
def sampleConnect : Request := ⟨"CONNECT", "localhost:3000", [("Host", "localhost:3000")], ""⟩

/-- A close without `lastDisconnect`. -/
def sampleBareClose : JSValue := .obj [("connection", .str "close")]

/-- An update that reports neither `close` nor `open`. -/
def sampleConnecting : JSValue := .obj [("connection", .str "connecting")]

/-- Environment whose `SESSION_DATA` is the base64 text of `oops`. -/
def brokenSessionEnv : Env := ⟨none, none, none, some "b29wcw=="⟩

/-- Environment whose `SESSION_DATA` is the base64 text of the object with the
one key `creds` and value 1. -/
def credsSessionEnv : Env := ⟨none, none, none, some "eyJjcmVkcyI6MX0="⟩

/-- Environment whose `SESSION_DATA` is the base64 text of the object with the
one key `__proto__` and value 1. -/
def protoSessionEnv : Env := ⟨none, none, none, some "eyJfX3Byb3RvX18iOjF9"⟩

/-! ## Lemmas on computations -/

@[simp] theorem run_bind {α β : Type} (m : Run α) (f : α → Run β) :
    (m >>= f) = Run.andThen m f := rfl

@[simp] theorem run_pure {α : Type} (a : α) : (pure a : Run α) = Run.ret a := rfl

@[simp] theorem ret_eq {α : Type} (a : α) : Run.ret a = ⟨[], .returned a⟩ := rfl

@[simp] theorem emit_eq (e : Effect) : Run.emit e = ⟨[e], .returned ()⟩ := rfl

@[simp] theorem log_eq (l : LogLevel) (a : List String) :
    Run.log l a = ⟨[.log l a], .returned ()⟩ := rfl

@[simp] theorem exit_eq {α : Type} (c : Nat) :
    (Run.exit c : Run α) = ⟨[.processExit c], .exited c⟩ := rfl

@[simp] theorem call_ok {α : Type} (e : Effect) (a : α) :
    Run.call e (.ok a) = ⟨[e], .returned a⟩ := rfl

@[simp] theorem call_error {α : Type} (e : Effect) (msg : String) :
    (Run.call e (.error msg) : Run α) = ⟨[e], .threw msg⟩ := rfl

@[simp] theorem eval_ok {α : Type} (a : α) : Run.eval (.ok a) = ⟨[], .returned a⟩ := rfl

@[simp] theorem eval_error {α : Type} (msg : String) :
    (Run.eval (.error msg) : Run α) = ⟨[], .threw msg⟩ := rfl

@[simp] theorem andThen_returned {α β : Type} (t : List Effect) (a : α) (f : α → Run β) :
    Run.andThen ⟨t, .returned a⟩ f = ⟨t ++ (f a).trace, (f a).outcome⟩ := rfl

@[simp] theorem andThen_threw {α β : Type} (t : List Effect) (e : String) (f : α → Run β) :
    Run.andThen ⟨t, .threw e⟩ f = ⟨t, .threw e⟩ := rfl

@[simp] theorem andThen_exited {α β : Type} (t : List Effect) (c : Nat) (f : α → Run β) :
    Run.andThen ⟨t, .exited c⟩ f = ⟨t, .exited c⟩ := rfl

@[simp] theorem tryCatch_returned {α : Type} (t : List Effect) (a : α) (h : String → Run α) :
    Run.tryCatch ⟨t, .returned a⟩ h = ⟨t, .returned a⟩ := rfl

@[simp] theorem tryCatch_threw {α : Type} (t : List Effect) (e : String) (h : String → Run α) :
    Run.tryCatch ⟨t, .threw e⟩ h = ⟨t ++ (h e).trace, (h e).outcome⟩ := rfl

@[simp] theorem tryCatch_exited {α : Type} (t : List Effect) (c : Nat) (h : String → Run α) :
    Run.tryCatch ⟨t, .exited c⟩ h = ⟨t, .exited c⟩ := rfl

/-! ## The HTTP server and the keep-alive ping -/

/-- Claim C8, as the code has it: the request listener writes status 200 and
ends the response for every request, whatever its method, path, headers or
body; a request that the server hands to the listener is answered with status
200 and the body `NexusCoders WhatsApp bot is running!`, the body being left
out in answer to `HEAD`; and a keep-alive ping so answered is classified as
successful, never as failed. -/
theorem server_answers_routed_requests (lib : Lib) (req : Request) (res : Response) :
    (requestListener req res).statusCode = 200 ∧
    (requestListener req res).ended = true ∧
    (lib.httpRoute req = .listener →
      server lib req = .response 200
        (if req.method = "HEAD" then "" else "NexusCoders WhatsApp bot is running!") ∧
      keepAliveSettled (server lib req)
        = ⟨[.log .info ["Keep-alive ping successful"]], .returned ()⟩ ∧
      Effect.log .warn ["Keep-alive ping failed"] ∉ (keepAliveSettled (server lib req)).trace) := by
  refine ⟨rfl, rfl, ?_⟩
  intro hroute
  have hserver : server lib req = .response 200
      (if req.method = "HEAD" then "" else "NexusCoders WhatsApp bot is running!") := by
    unfold server
    rw [hroute]
    by_cases hm : req.method = "HEAD"
    · simp [requestListener, Response.forRequest, Response.writeHead, Response.finish, hm]
    · simp [requestListener, Response.forRequest, Response.writeHead, Response.finish, hm]
  refine ⟨hserver, ?_, ?_⟩
  · rw [hserver]
    simp [keepAliveSettled, keepAliveResponse]
  · rw [hserver]
    simp [keepAliveSettled, keepAliveResponse]

/-- Witness of C8 as amended: the keep-alive ping, a `GET` without `Expect`
header, is handed to the listener and answered with status 200 and the body. -/
theorem server_answers_routed_requests_witness :
    server sampleLib samplePing = .response 200 "NexusCoders WhatsApp bot is running!" ∧
    keepAliveSettled (server sampleLib samplePing)
      = ⟨[.log .info ["Keep-alive ping successful"]], .returned ()⟩ :=
  ⟨((server_answers_routed_requests sampleLib samplePing (Response.forRequest samplePing)).2.2
      rfl).1.trans rfl,
   ((server_answers_routed_requests sampleLib samplePing (Response.forRequest samplePing)).2.2
      rfl).2.1⟩

/-- Counterexample to C8 as stated: a `HEAD` request is answered with status
200 and an empty body, a request with the header `Expect: nonsense` with status
417 without the listener being called (a ping so answered would be classified
as failed), and a `CONNECT` request with no response at all. -/
theorem server_head_expect_connect_counterexample :
    server sampleLib sampleHead = .response 200 "" ∧
    server sampleLib sampleHead ≠ .response 200 "NexusCoders WhatsApp bot is running!" ∧
    server sampleLib sampleExpect = .response 417 "" ∧
    keepAliveSettled (server sampleLib sampleExpect)
      = ⟨[.log .warn ["Keep-alive ping failed"]], .returned ()⟩ ∧
    server sampleLib sampleConnect = .closed := by
  have hhead : server sampleLib sampleHead = .response 200 "" := rfl
  refine ⟨hhead, ?_, rfl, rfl, rfl⟩
  rw [hhead]
  intro h
  injection h with _ hbody
  exact absurd hbody (by decide)

/-- Claim C7: `setupKeepAlive` schedules its callback every 300000 ms
(5 * 60 * 1000); each firing issues exactly one GET, to `http://localhost:`
followed by the string of the port given to `server.listen`; that port is the
text of `PORT` when it is set and not empty and 3000 otherwise. -/
theorem keep_alive_period_and_target (lib : Lib) (env : Env) (p : String) :
    setupKeepAlive = ⟨[.setInterval 300000], .returned ()⟩ ∧
    keepAlivePeriod = 300000 ∧
    (startServer lib env).trace = [.listen (PORT env) "0.0.0.0"] ∧
    (keepAliveTick lib env).trace = [.httpGet ("http://localhost:" ++ toStr (PORT env))] ∧
    (startServer lib { env with PORT := some p }).trace
      = [.listen (if p = "" then .num 3000 else .str p) "0.0.0.0"] ∧
    (keepAliveTick lib { env with PORT := some p }).trace
      = [.httpGet ("http://localhost:" ++ (if p = "" then "3000" else p))] ∧
    (startServer lib { env with PORT := none }).trace = [.listen (.num 3000) "0.0.0.0"] ∧
    (keepAliveTick lib { env with PORT := none }).trace = [.httpGet "http://localhost:3000"] := by
  have hcall : ∀ (e : Effect) (r : Except String Unit), (Run.call e r).trace = [e] := by
    intro e r; cases r <;> rfl
  refine ⟨rfl, rfl, hcall _ _, hcall _ _, ?_, ?_, hcall _ _, ?_⟩
  · simp only [startServer, hcall, PORT]
    by_cases hp : p = "" <;> simp [hp]
  · simp only [keepAliveTick, hcall, PORT]
    by_cases hp : p = "" <;> simp [hp, toStr]
    rfl
  · simp only [keepAliveTick, hcall, PORT, toStr]
    rfl

/-! ## Start-up -/

/-- Claim C6: when `mongoose.connect` rejects, `initializeMongoStore` ends the
process with exit code 1, and so does `main`, whose whole trace is the failed
connection, the error log and the exit: no socket is constructed, no listener
started and no timer set. -/
theorem mongo_failure_stops_startup (lib : Lib) (env : Env) (e : String)
    (h : lib.mongooseConnect (MONGODB_URI env) = .error e) :
    (initializeMongoStore lib env).outcome = .exited 1 ∧
    (main lib env).outcome = .exited 1 ∧
    (main lib env).trace =
      [.mongooseConnect (MONGODB_URI env),
       .log .error ["Failed to connect to MongoDB:", e],
       .processExit 1] ∧
    (∀ c k, Effect.makeWASocket c k ∉ (main lib env).trace) ∧
    (∀ q a, Effect.listen q a ∉ (main lib env).trace) ∧
    (∀ ms, Effect.setInterval ms ∉ (main lib env).trace) := by
  have hinit : initializeMongoStore lib env =
      ⟨[.mongooseConnect (MONGODB_URI env),
        .log .error ["Failed to connect to MongoDB:", e],
        .processExit 1], .exited 1⟩ := by
    simp [initializeMongoStore, h]
  have hmain : main lib env =
      ⟨[.mongooseConnect (MONGODB_URI env),
        .log .error ["Failed to connect to MongoDB:", e],
        .processExit 1], .exited 1⟩ := by
    simp [main, hinit]
  refine ⟨by rw [hinit], by rw [hmain], by rw [hmain], ?_, ?_, ?_⟩ <;>
    · intros
      rw [hmain]
      simp

/-- Witness of C6: a library whose database connection is refused. -/
theorem mongo_failure_stops_startup_witness :
    (initializeMongoStore { sampleLib with mongooseConnect := fun _ => .error "refused" }
        sampleEnv).outcome = .exited 1 ∧
    (main { sampleLib with mongooseConnect := fun _ => .error "refused" } sampleEnv).outcome
      = .exited 1 :=
  ⟨(mongo_failure_stops_startup
      { sampleLib with mongooseConnect := fun _ => .error "refused" } sampleEnv "refused" rfl).1,
   (mongo_failure_stops_startup
      { sampleLib with mongooseConnect := fun _ => .error "refused" } sampleEnv "refused" rfl).2.1⟩

/-- The bootstrap always returns: either silently with some state, or with
the error log and the state it was given. -/
theorem bootstrap_cases (lib : Lib) (env : Env) (st : AuthState) :
    (∃ st', sessionBootstrap lib env st = ⟨[], .returned st'⟩) ∨
    (∃ e, sessionBootstrap lib env st
      = ⟨[.log .error ["Error parsing SESSION_DATA:", e]], .returned st⟩) := by
  unfold sessionBootstrap
  cases hd : SESSION_DATA env with
  | none => exact Or.inl ⟨st, rfl⟩
  | some data =>
    by_cases hdata : data = ""
    · exact Or.inl ⟨st, by simp [hdata]⟩
    · cases hp : lib.jsonParse (lib.bufferFromBase64 data) with
      | ok v => exact Or.inl ⟨objectAssign st v, by simp [hdata, hp]⟩
      | error e => exact Or.inr ⟨e, by simp [hdata, hp]⟩

/-- Shape of a run of `connectToWhatsApp` that returns: the auth state is
loaded, the bootstrap runs, the socket is constructed from the state that the
bootstrap returned, and three listeners are registered. -/
theorem connect_returned (lib : Lib) (env : Env)
    (h : (connectToWhatsApp lib env).outcome = .returned ()) :
    ∃ creds keys st,
      lib.useMultiFileAuthState SESSION_DIR = .ok (creds, keys) ∧
      (sessionBootstrap lib env (AuthState.fresh creds keys)).outcome = .returned st ∧
      (connectToWhatsApp lib env).trace =
        .useMultiFileAuthState SESSION_DIR ::
          ((sessionBootstrap lib env (AuthState.fresh creds keys)).trace ++
            [.makeWASocket st.creds st.keys,
             .evOn "connection.update" .connectionUpdate,
             .evOn "messages.upsert" .messagesUpsert,
             .evOn "creds.update" .saveCreds]) := by
  unfold connectToWhatsApp at h ⊢
  cases hl : lib.useMultiFileAuthState SESSION_DIR with
  | error e => simp [hl] at h
  | ok loaded =>
    obtain ⟨creds, keys⟩ := loaded
    refine ⟨creds, keys, ?_⟩
    rcases bootstrap_cases lib env (AuthState.fresh creds keys) with ⟨st, hb⟩ | ⟨e, hb⟩
    · refine ⟨st, rfl, by rw [hb], ?_⟩
      cases hs : lib.makeWASocket st.creds st.keys with
      | error e => simp [hl, hb, hs] at h
      | ok u => simp [hl, hb, hs]
    · refine ⟨AuthState.fresh creds keys, rfl, by rw [hb], ?_⟩
      cases hs : lib.makeWASocket (AuthState.fresh creds keys).creds (AuthState.fresh creds keys).keys with
      | error e => simp [hl, hb, hs] at h
      | ok u => simp [hl, hb, hs]

/-- The bootstrap registers no listener. -/
theorem listeners_bootstrap (lib : Lib) (env : Env) (st : AuthState) (rest : List Effect) :
    listeners ((sessionBootstrap lib env st).trace ++ rest) = listeners rest := by
  rcases bootstrap_cases lib env st with ⟨st', hb⟩ | ⟨e, hb⟩ <;> rw [hb] <;> rfl

/-- Claim C5, as the code has it: a call of `connectToWhatsApp` that returns
has registered exactly three listeners on the event emitter of the socket, for
`connection.update`, `messages.upsert` and `creds.update`, in this order. -/
theorem connect_registers_three_listeners (lib : Lib) (env : Env)
    (h : (connectToWhatsApp lib env).outcome = .returned ()) :
    listeners (connectToWhatsApp lib env).trace
      = ["connection.update", "messages.upsert", "creds.update"] ∧
    (listeners (connectToWhatsApp lib env).trace).length = 3 := by
  obtain ⟨creds, keys, st, -, -, ht⟩ := connect_returned lib env h
  have hl : listeners (connectToWhatsApp lib env).trace
      = ["connection.update", "messages.upsert", "creds.update"] := by
    rw [ht]
    show listeners ((sessionBootstrap lib env (AuthState.fresh creds keys)).trace ++ _) = _
    rw [listeners_bootstrap]
    rfl
  exact ⟨hl, by rw [hl]; rfl⟩

/-- Witness of C5 as amended: the sample run returns with three listeners. -/
theorem connect_registers_three_listeners_witness :
    (connectToWhatsApp sampleLib sampleEnv).outcome = .returned () ∧
    listeners (connectToWhatsApp sampleLib sampleEnv).trace
      = ["connection.update", "messages.upsert", "creds.update"] :=
  ⟨rfl, (connect_registers_three_listeners sampleLib sampleEnv rfl).1⟩

/-- Counterexample to C5 as stated: the sample run of `connectToWhatsApp`
returns and has registered three listeners, not four. -/
theorem connect_four_listeners_counterexample :
    (connectToWhatsApp sampleLib sampleEnv).outcome = .returned () ∧
    (listeners (connectToWhatsApp sampleLib sampleEnv).trace).length = 3 ∧
    (listeners (connectToWhatsApp sampleLib sampleEnv).trace).length ≠ 4 := by
  refine ⟨rfl, rfl, ?_⟩
  decide

/-- Claim C4: in a run of `main` in which no step fails, the trace is the
database connection (and its log), then the whole of `connectToWhatsApp`
(loading the auth state, the bootstrap, the socket, the listeners), then the
call of `server.listen`, then `setInterval`, and only then the three
process-level handlers; every step starts when the previous call has returned. -/
theorem main_sequential (lib : Lib) (env : Env)
    (hdb : lib.mongooseConnect (MONGODB_URI env) = .ok ())
    (hwa : (connectToWhatsApp lib env).outcome = .returned ())
    (hls : lib.listen (PORT env) "0.0.0.0" = .ok ()) :
    (main lib env).outcome = .returned () ∧
    (main lib env).trace =
      [.mongooseConnect (MONGODB_URI env), .log .info ["Connected to MongoDB"]] ++
      (connectToWhatsApp lib env).trace ++
      [.listen (PORT env) "0.0.0.0",
       .setInterval 300000,
       .processOn "unhandledRejection",
       .processOn "uncaughtException",
       .processOn "SIGINT"] ∧
    (∃ (creds keys : JSValue) (st : AuthState),
      (connectToWhatsApp lib env).trace =
        .useMultiFileAuthState SESSION_DIR ::
          ((sessionBootstrap lib env (AuthState.fresh creds keys)).trace ++
            [.makeWASocket st.creds st.keys,
             .evOn "connection.update" .connectionUpdate,
             .evOn "messages.upsert" .messagesUpsert,
             .evOn "creds.update" .saveCreds])) := by
  have hinit : initializeMongoStore lib env =
      ⟨[.mongooseConnect (MONGODB_URI env), .log .info ["Connected to MongoDB"]],
        .returned ()⟩ := by
    simp [initializeMongoStore, hdb]
  have hshape := connect_returned lib env hwa
  have hmain : main lib env =
      ⟨[.mongooseConnect (MONGODB_URI env), .log .info ["Connected to MongoDB"]] ++
        (connectToWhatsApp lib env).trace ++
        [.listen (PORT env) "0.0.0.0",
         .setInterval 300000,
         .processOn "unhandledRejection",
         .processOn "uncaughtException",
         .processOn "SIGINT"], .returned ()⟩ := by
    unfold main
    rw [hinit]
    generalize hc : connectToWhatsApp lib env = c at hwa
    obtain ⟨t, o⟩ := c
    simp only at hwa
    subst hwa
    simp [startServer, setupKeepAlive, keepAlivePeriod, hls]
  obtain ⟨creds, keys, st, -, -, ht⟩ := hshape
  exact ⟨by rw [hmain], by rw [hmain], creds, keys, st, ht⟩

/-- Witness of C4: the sample run, in which every call succeeds. -/
theorem main_sequential_witness :
    (main sampleLib sampleEnv).outcome = .returned () ∧
    (main sampleLib sampleEnv).trace =
      [.mongooseConnect "", .log .info ["Connected to MongoDB"],
       .useMultiFileAuthState "./auth_info_baileys",
       .makeWASocket sampleCreds sampleKeys,
       .evOn "connection.update" .connectionUpdate,
       .evOn "messages.upsert" .messagesUpsert,
       .evOn "creds.update" .saveCreds,
       .listen (.num 3000) "0.0.0.0",
       .setInterval 300000,
       .processOn "unhandledRejection",
       .processOn "uncaughtException",
       .processOn "SIGINT"] :=
  ⟨(main_sequential sampleLib sampleEnv rfl rfl rfl).1,
   (main_sequential sampleLib sampleEnv rfl rfl rfl).2.1.trans rfl⟩

/-! ## The connection callback -/

/-- Claim C10, as the code has it: when the connection opens, the ready message
is sent exactly once, and its recipient is `undefined@s.whatsapp.net` whatever
`OWNER_NUMBER` is: the callback reads `config.ownerNumber`, while `config.js`
stores the owner number under `owner`.  A failure of the send is caught. -/
theorem ready_message_recipient (lib : Lib) (env : Env) :
    getProp (config env) "owner" = envValue env.OWNER_NUMBER ∧
    getProp (config env) "ownerNumber" = .undefined ∧
    sent (connectionUpdate lib env (.obj [("connection", .str "open")])).trace
      = [("undefined@s.whatsapp.net", "NexusCoders Bot is connected and ready to use!")] ∧
    (connectionUpdate lib env (.obj [("connection", .str "open")])).outcome = .returned () ∧
    sent (connectionUpdate sampleLib sampleEnv (.obj [("connection", .str "open")])).trace
      ≠ [("2348012345678@s.whatsapp.net", "NexusCoders Bot is connected and ready to use!")] := by
  have hkey : getProp (config env) "ownerNumber" = .undefined := by
    simp [getProp, config, lookupProp]
  refine ⟨by simp [getProp, config, lookupProp], hkey, ?_, ?_, by decide⟩
  · cases hs : lib.sendMessage "undefined@s.whatsapp.net"
        "NexusCoders Bot is connected and ready to use!" <;>
      simp [connectionUpdate, isNullish, getProp, lookupProp, strictEq, config, toStr, hs, sent]
  · cases hs : lib.sendMessage "undefined@s.whatsapp.net"
        "NexusCoders Bot is connected and ready to use!" <;>
      simp [connectionUpdate, isNullish, getProp, lookupProp, strictEq, config, toStr, hs]

theorem strictEq_num (v : JSValue) (n : Int) : strictEq v (.num n) = true ↔ v = .num n := by
  cases v <;> simp [strictEq]

theorem strictEq_str (v : JSValue) (t : String) : strictEq v (.str t) = true ↔ v = .str t := by
  cases v <;> simp [strictEq]

theorem getProp_nullish (v : JSValue) (k : String) (h : isNullish v = true) :
    getProp v k = .undefined := by
  cases v <;> simp [isNullish] at h <;> rfl

theorem optChain_nullish (v : JSValue) (k : String) (h : isNullish v = true) :
    optChain v k = .undefined := by
  simp [optChain, h]

theorem optChain_undefined (k : String) : optChain .undefined k = .undefined := rfl

theorem optChain_obj (ps : List (String × JSValue)) (k : String) :
    optChain (.obj ps) k = (lookupProp ps k).getD .undefined := rfl

/-- The callback on an update whose connection is `close` and whose error is
serialised: one log, then the re-entrant call unless the status code is the
logged-out one. -/
theorem connectionUpdate_close (lib : Lib) (env : Env) (update : JSValue) (text : String)
    (hc : getProp update "connection" = .str "close")
    (hj : lib.jsonStringify (optChain (getProp update "lastDisconnect") "error") = .ok text) :
    connectionUpdate lib env update =
      ⟨.log .info ["Connection closed due to " ++ text ++ ", reconnecting "
          ++ toStr (.bool (!(strictEq (statusCodeOf update) (.num lib.loggedOut))))] ::
        (if strictEq (statusCodeOf update) (.num lib.loggedOut) = true then []
          else [.connectToWhatsApp]),
       .returned ()⟩ := by
  have hn : isNullish update = false := by
    cases hnu : isNullish update with
    | false => rfl
    | true => rw [getProp_nullish update _ hnu] at hc; cases hc
  have e1 : strictEq (.str "close") (.str "close") = true := by decide
  unfold connectionUpdate statusCodeOf
  simp only [hn, hc, e1, hj]
  generalize strictEq (optChain (optChain (optChain (getProp update "lastDisconnect") "error")
      "output") "statusCode") (.num lib.loggedOut) = b
  cases b <;> simp

/-- The status code of an update is the value found under `lastDisconnect`,
`error`, `output`, `statusCode`. -/
theorem statusCodeOf_found (update : JSValue) (psL psE psO : List (String × JSValue))
    (v : JSValue)
    (hL : getProp update "lastDisconnect" = .obj psL)
    (hE : lookupProp psL "error" = some (.obj psE))
    (hO : lookupProp psE "output" = some (.obj psO))
    (hS : lookupProp psO "statusCode" = some v) :
    statusCodeOf update = v := by
  unfold statusCodeOf
  rw [hL, optChain_obj, hE, Option.getD_some, optChain_obj, hO, Option.getD_some,
    optChain_obj, hS, Option.getD_some]

/-- The callback on an update whose connection is neither `close` nor `open`
has no effect at all. -/
theorem connectionUpdate_other (lib : Lib) (env : Env) (update : JSValue)
    (hc : getProp update "connection" ≠ .str "close")
    (ho : getProp update "connection" ≠ .str "open") :
    (connectionUpdate lib env update).trace = [] := by
  have h1 : strictEq (getProp update "connection") (.str "close") = false := by
    cases h : strictEq (getProp update "connection") (.str "close") with
    | false => rfl
    | true => exact absurd ((strictEq_str _ _).1 h) hc
  have h2 : strictEq (getProp update "connection") (.str "open") = false := by
    cases h : strictEq (getProp update "connection") (.str "open") with
    | false => rfl
    | true => exact absurd ((strictEq_str _ _).1 h) ho
  unfold connectionUpdate
  cases hn : isNullish update <;> simp [h1, h2]

/-- The callback on an update whose connection is `close` and whose error is
not serialised: the callback throws what `JSON.stringify` throws, before any
log and any call. -/
theorem connectionUpdate_close_throws (lib : Lib) (env : Env) (update : JSValue) (e : String)
    (hc : getProp update "connection" = .str "close")
    (hj : lib.jsonStringify (optChain (getProp update "lastDisconnect") "error") = .error e) :
    connectionUpdate lib env update = ⟨[], .threw e⟩ := by
  have hn : isNullish update = false := by
    cases hnu : isNullish update with
    | false => rfl
    | true => rw [getProp_nullish update _ hnu] at hc; cases hc
  have e1 : strictEq (.str "close") (.str "close") = true := by decide
  unfold connectionUpdate
  simp only [hn, hc, e1, hj]
  simp

/-- Claim C1, as the code has it: on an update whose connection is `close` and
whose `lastDisconnect?.error` is serialised by `JSON.stringify`, the callback
calls `connectToWhatsApp` exactly once when
`lastDisconnect?.error?.output?.statusCode` differs from
`DisconnectReason.loggedOut` and not at all when it is equal, sends nothing and
returns; the status code is the value found under `lastDisconnect`, `error`,
`output`, `statusCode`, and `undefined` (hence a reconnect) when
`lastDisconnect`, the error, the output or the status code is missing; an
update whose connection is neither `close` nor `open` triggers neither a
reconnect nor a send. -/
theorem connection_update_reconnect (lib : Lib) (env : Env) (update : JSValue) :
    (∀ text, getProp update "connection" = .str "close" →
      lib.jsonStringify (optChain (getProp update "lastDisconnect") "error") = .ok text →
      (reconnects (connectionUpdate lib env update).trace = 1
        ↔ statusCodeOf update ≠ .num lib.loggedOut) ∧
      (reconnects (connectionUpdate lib env update).trace = 0
        ↔ statusCodeOf update = .num lib.loggedOut) ∧
      sent (connectionUpdate lib env update).trace = [] ∧
      (connectionUpdate lib env update).outcome = .returned ()) ∧
    (∀ psL psE psO v, getProp update "lastDisconnect" = .obj psL →
      lookupProp psL "error" = some (.obj psE) →
      lookupProp psE "output" = some (.obj psO) →
      lookupProp psO "statusCode" = some v →
      statusCodeOf update = v) ∧
    (getProp update "lastDisconnect" = .undefined → statusCodeOf update = .undefined) ∧
    (∀ psL, getProp update "lastDisconnect" = .obj psL → lookupProp psL "error" = none →
      statusCodeOf update = .undefined) ∧
    (∀ psL psE, getProp update "lastDisconnect" = .obj psL →
      lookupProp psL "error" = some (.obj psE) → lookupProp psE "output" = none →
      statusCodeOf update = .undefined) ∧
    (∀ psL psE psO, getProp update "lastDisconnect" = .obj psL →
      lookupProp psL "error" = some (.obj psE) → lookupProp psE "output" = some (.obj psO) →
      lookupProp psO "statusCode" = none →
      statusCodeOf update = .undefined) ∧
    (∀ text, getProp update "connection" = .str "close" →
      lib.jsonStringify (optChain (getProp update "lastDisconnect") "error") = .ok text →
      statusCodeOf update = .undefined →
      reconnects (connectionUpdate lib env update).trace = 1) ∧
    (getProp update "connection" ≠ .str "close" → getProp update "connection" ≠ .str "open" →
      reconnects (connectionUpdate lib env update).trace = 0 ∧
      sent (connectionUpdate lib env update).trace = []) := by
  have hclose : ∀ text, getProp update "connection" = .str "close" →
      lib.jsonStringify (optChain (getProp update "lastDisconnect") "error") = .ok text →
      (reconnects (connectionUpdate lib env update).trace = 1
        ↔ statusCodeOf update ≠ .num lib.loggedOut) ∧
      (reconnects (connectionUpdate lib env update).trace = 0
        ↔ statusCodeOf update = .num lib.loggedOut) ∧
      sent (connectionUpdate lib env update).trace = [] ∧
      (connectionUpdate lib env update).outcome = .returned () := by
    intro text hc hj
    rw [connectionUpdate_close lib env update text hc hj]
    cases hs : strictEq (statusCodeOf update) (.num lib.loggedOut) with
    | true =>
      have heq := (strictEq_num _ _).1 hs
      simp [reconnects, sent, heq]
    | false =>
      have hne : statusCodeOf update ≠ .num lib.loggedOut := by
        intro heq
        rw [(strictEq_num _ _).2 heq] at hs
        cases hs
      simp [reconnects, sent, hne]
  refine ⟨hclose, ?_, ?_, ?_, ?_, ?_, ?_, ?_⟩
  · intro psL psE psO v hL hE hO hS
    exact statusCodeOf_found update psL psE psO v hL hE hO hS
  · intro hL
    unfold statusCodeOf
    rw [hL, optChain_undefined, optChain_undefined, optChain_undefined]
  · intro psL hL hE
    unfold statusCodeOf
    rw [hL, optChain_obj, hE, Option.getD_none, optChain_undefined, optChain_undefined]
  · intro psL psE hL hE hO
    unfold statusCodeOf
    rw [hL, optChain_obj, hE, Option.getD_some, optChain_obj, hO, Option.getD_none,
      optChain_undefined]
  · intro psL psE psO hL hE hO hS
    unfold statusCodeOf
    rw [hL, optChain_obj, hE, Option.getD_some, optChain_obj, hO, Option.getD_some,
      optChain_obj, hS, Option.getD_none]
  · intro text hc hj hu
    refine (hclose text hc hj).1.2 ?_
    rw [hu]
    intro h
    cases h
  · intro hc ho
    rw [connectionUpdate_other lib env update hc ho]
    exact ⟨rfl, rfl⟩

/-- Witness of C1 as amended, with 401 as the logged-out code: a close with
status code 500 reconnects once, a logged-out close (401) does not reconnect, a
close without `lastDisconnect` reconnects once, and a `connecting` update does
nothing. -/
theorem connection_update_reconnect_witness :
    reconnects (connectionUpdate sampleLib sampleEnv sampleClose).trace = 1 ∧
    statusCodeOf sampleLoggedOut = .num 401 ∧
    reconnects (connectionUpdate sampleLib sampleEnv sampleLoggedOut).trace = 0 ∧
    reconnects (connectionUpdate sampleLib sampleEnv sampleBareClose).trace = 1 ∧
    (reconnects (connectionUpdate sampleLib sampleEnv sampleConnecting).trace = 0 ∧
      sent (connectionUpdate sampleLib sampleEnv sampleConnecting).trace = []) :=
  ⟨((connection_update_reconnect sampleLib sampleEnv sampleClose).1 _ rfl rfl).1.2
      (by
        rw [(connection_update_reconnect sampleLib sampleEnv sampleClose).2.1
          _ _ _ (.num 500) rfl rfl rfl rfl]
        intro h
        injection h with h
        exact absurd h (by decide)),
   (connection_update_reconnect sampleLib sampleEnv sampleLoggedOut).2.1
      _ _ _ (.num 401) rfl rfl rfl rfl,
   ((connection_update_reconnect sampleLib sampleEnv sampleLoggedOut).1 _ rfl rfl).2.1.2
      ((connection_update_reconnect sampleLib sampleEnv sampleLoggedOut).2.1
        _ _ _ (.num 401) rfl rfl rfl rfl),
   (connection_update_reconnect sampleLib sampleEnv sampleBareClose).2.2.2.2.2.2.1 _ rfl rfl
      ((connection_update_reconnect sampleLib sampleEnv sampleBareClose).2.2.1 rfl),
   (connection_update_reconnect sampleLib sampleEnv sampleConnecting).2.2.2.2.2.2.2
      (by simp [sampleConnecting, getProp, lookupProp])
      (by simp [sampleConnecting, getProp, lookupProp])⟩

/-- Counterexample to C1 as stated: a close whose status code is 500, which
differs from the logged-out code 401, and whose error object holds a BigInt:
`JSON.stringify` throws on it, so the callback throws before the re-entrant
call and `connectToWhatsApp` is not called. -/
theorem connection_update_stringify_counterexample :
    getProp sampleBigIntClose "connection" = .str "close" ∧
    statusCodeOf sampleBigIntClose = .num 500 ∧
    statusCodeOf sampleBigIntClose ≠ .num sampleLib.loggedOut ∧
    reconnects (connectionUpdate sampleLib sampleEnv sampleBigIntClose).trace = 0 ∧
    (connectionUpdate sampleLib sampleEnv sampleBigIntClose).outcome
      = .threw "TypeError: Do not know how to serialize a BigInt" := by
  have hrun : connectionUpdate sampleLib sampleEnv sampleBigIntClose
      = ⟨[], .threw "TypeError: Do not know how to serialize a BigInt"⟩ :=
    connectionUpdate_close_throws sampleLib sampleEnv sampleBigIntClose _ rfl rfl
  have hsc : statusCodeOf sampleBigIntClose = .num 500 := rfl
  refine ⟨rfl, hsc, ?_, by rw [hrun]; rfl, by rw [hrun]⟩
  rw [hsc]
  intro h
  injection h with h
  exact absurd h (by decide)

/-! ## The message callback -/

/-- The loop over the messages returns and invokes the handler on the
messages that are not from the bot itself, whatever the handler does. -/
theorem dispatchMessages_spec (lib : Lib) (msgs : List WAMessage) :
    (dispatchMessages lib msgs).outcome = .returned () ∧
    handled (dispatchMessages lib msgs).trace = msgs.filter notFromMe := by
  induction msgs with
  | nil => exact ⟨rfl, rfl⟩
  | cons msg rest ih =>
    obtain ⟨ho, ht⟩ := ih
    generalize hr : dispatchMessages lib rest = r at ho ht
    obtain ⟨t, o⟩ := r
    simp only at ho ht
    subst ho
    unfold dispatchMessages
    rw [hr]
    cases hn : notFromMe msg with
    | false => simp [hn, ht]
    | true =>
      cases hh : lib.messageHandler msg with
      | ok u => simp [hn, hh, handled, ht]
      | error e => simp [hn, hh, handled, ht]

/-- Claim C9: for every `messages.upsert` event, the callback returns (it never
throws, even when handler calls throw), and the messages on which the handler
is invoked are exactly those of `m.messages` whose `key.fromMe` is not true, in
their order and each once, when `m.type` is `notify`, and none otherwise. -/
theorem messages_upsert_dispatch (lib : Lib) (m : UpsertEvent) :
    (messagesUpsert lib m).outcome = .returned () ∧
    handled (messagesUpsert lib m).trace
      = (if m.type = "notify" then m.messages.filter notFromMe else []) ∧
    (∀ (jid id : Option String) (b : Bool) (body : JSValue),
      notFromMe ⟨⟨jid, some b, id⟩, body⟩ = !b) ∧
    (∀ (jid id : Option String) (body : JSValue), notFromMe ⟨⟨jid, none, id⟩, body⟩ = true) := by
  refine ⟨?_, ?_, ?_, ?_⟩
  · unfold messagesUpsert
    by_cases h : m.type = "notify"
    · simp only [h, if_true]
      exact (dispatchMessages_spec lib m.messages).1
    · simp [h]
  · unfold messagesUpsert
    by_cases h : m.type = "notify"
    · simp only [h, if_true]
      exact (dispatchMessages_spec lib m.messages).2
    · simp [h, handled]
  · intro jid id b body
    cases b <;> rfl
  · intro jid id body
    rfl

/-! ## The credential bootstrap -/

theorem lookupProp_replace_self (ps : List (String × JSValue)) (k : String) (v : JSValue)
    (h : (lookupProp ps k).isSome = true) : lookupProp (replaceProp ps k v) k = some v := by
  induction ps with
  | nil => simp [lookupProp] at h
  | cons p rest ih =>
    obtain ⟨k', v'⟩ := p
    by_cases hk : k' = k
    · simp [replaceProp, lookupProp, hk]
    · simp only [lookupProp, hk, if_false] at h
      simp [replaceProp, lookupProp, hk, ih h]

theorem lookupProp_replace_ne (ps : List (String × JSValue)) (k k' : String) (v : JSValue)
    (hne : k' ≠ k) : lookupProp (replaceProp ps k v) k' = lookupProp ps k' := by
  induction ps with
  | nil => rfl
  | cons p rest ih =>
    obtain ⟨k0, v0⟩ := p
    by_cases hk : k0 = k
    · subst hk
      have h0 : ¬ k0 = k' := fun h => hne h.symm
      simp [replaceProp, lookupProp, h0]
    · by_cases hk' : k0 = k'
      · subst hk'
        simp [replaceProp, lookupProp, hk]
      · simp [replaceProp, lookupProp, hk, hk', ih]

theorem lookupProp_append (ps : List (String × JSValue)) (k k' : String) (v : JSValue) :
    lookupProp (ps ++ [(k, v)]) k' =
      (match lookupProp ps k' with
       | some w => some w
       | none => if k = k' then some v else none) := by
  induction ps with
  | nil => simp [lookupProp]
  | cons p rest ih =>
    obtain ⟨k0, v0⟩ := p
    by_cases hk : k0 = k'
    · simp [lookupProp, hk]
    · simp [lookupProp, hk, ih]

/-- An assignment leaves the own properties under the other keys as they are. -/
theorem own_set_ne (st : AuthState) (k k' : String) (v : JSValue) (hne : k' ≠ k) :
    (st.set k v).own k' = st.own k' := by
  unfold AuthState.set
  by_cases h1 : k = "creds"
  · subst h1
    simp [AuthState.own, hne]
  rw [if_neg h1]
  by_cases h2 : k = "keys"
  · subst h2
    simp [AuthState.own, hne]
  rw [if_neg h2]
  by_cases h3 : (lookupProp st.extra k).isSome = true
  · rw [if_pos h3]
    simp [AuthState.own, lookupProp_replace_ne _ _ _ _ hne]
  rw [if_neg h3]
  by_cases h4 : k = "__proto__" ∧ st.protoAccessor = true
  · rw [if_pos h4]
    cases isObjectOrNull v <;> simp [AuthState.own]
  · rw [if_neg h4]
    have hk : ¬ k = k' := fun h => hne h.symm
    simp only [AuthState.own, lookupProp_append, hk, if_false]
    cases lookupProp st.extra k' <;> rfl

/-- An assignment under a key other than `__proto__` makes the value an own
property under that key. -/
theorem own_set_self (st : AuthState) (k : String) (v : JSValue) (hk : k ≠ "__proto__") :
    (st.set k v).own k = some v := by
  unfold AuthState.set
  by_cases h1 : k = "creds"
  · subst h1
    simp [AuthState.own]
  rw [if_neg h1]
  by_cases h2 : k = "keys"
  · subst h2
    simp [AuthState.own]
  rw [if_neg h2]
  by_cases h3 : (lookupProp st.extra k).isSome = true
  · rw [if_pos h3]
    simp [AuthState.own, h1, h2, lookupProp_replace_self _ _ _ h3]
  · have h4 : ¬ (k = "__proto__" ∧ st.protoAccessor = true) := fun h => hk h.1
    rw [if_neg h3, if_neg h4]
    simp only [AuthState.own, h1, h2, if_false, lookupProp_append]
    cases hl : lookupProp st.extra k with
    | none => simp
    | some w => simp [hl] at h3

/-- Assigning a list of properties leaves the keys outside the list as they are. -/
theorem own_assign_notin (ps : List (String × JSValue)) (st : AuthState) (k : String)
    (h : k ∉ ps.map Prod.fst) :
    (ps.foldl (fun acc kv => acc.set kv.1 kv.2) st).own k = st.own k := by
  induction ps generalizing st with
  | nil => rfl
  | cons p rest ih =>
    simp only [List.map_cons, List.mem_cons, not_or] at h
    simp only [List.foldl_cons]
    rw [ih _ h.2, own_set_ne _ _ _ _ h.1]

/-- Assigning a list of properties with distinct keys stores every value under
its key, `__proto__` apart. -/
theorem own_assign_mem (ps : List (String × JSValue)) (st : AuthState) (k : String)
    (v : JSValue) (hnd : (ps.map Prod.fst).Nodup) (hmem : (k, v) ∈ ps) (hk : k ≠ "__proto__") :
    (ps.foldl (fun acc kv => acc.set kv.1 kv.2) st).own k = some v := by
  induction ps generalizing st with
  | nil => cases hmem
  | cons p rest ih =>
    simp only [List.map_cons, List.nodup_cons] at hnd
    simp only [List.foldl_cons]
    rcases List.mem_cons.1 hmem with h | h
    · subst h
      rw [own_assign_notin _ _ _ hnd.1]
      exact own_set_self _ _ _ hk
    · exact ih _ hnd.2 h

/-- A run of `connectToWhatsApp` after the auth state was loaded: the socket
is constructed from the state that the bootstrap returned, and the run ends as
the construction of the socket does. -/
theorem connect_loaded (lib : Lib) (env : Env) (creds keys : JSValue) (st : AuthState)
    (hl : lib.useMultiFileAuthState SESSION_DIR = .ok (creds, keys))
    (hb : (sessionBootstrap lib env (AuthState.fresh creds keys)).outcome = .returned st) :
    (connectToWhatsApp lib env).trace =
      .useMultiFileAuthState SESSION_DIR ::
        ((sessionBootstrap lib env (AuthState.fresh creds keys)).trace ++
          .makeWASocket st.creds st.keys ::
            (match lib.makeWASocket st.creds st.keys with
             | .ok _ => [.evOn "connection.update" .connectionUpdate,
                         .evOn "messages.upsert" .messagesUpsert,
                         .evOn "creds.update" .saveCreds]
             | .error _ => [])) ∧
    (connectToWhatsApp lib env).outcome =
      (match lib.makeWASocket st.creds st.keys with
       | .ok _ => .returned ()
       | .error e => .threw e) := by
  have heq : sessionBootstrap lib env (AuthState.fresh creds keys)
      = ⟨(sessionBootstrap lib env (AuthState.fresh creds keys)).trace, .returned st⟩ := by
    rw [← hb]
  generalize (sessionBootstrap lib env (AuthState.fresh creds keys)).trace = t at heq
  unfold connectToWhatsApp
  cases hs : lib.makeWASocket st.creds st.keys <;> simp [hl, heq, hs]

/-- Claim C2: when `SESSION_DATA` is unset or empty, or is not empty and its
base64 decoding is not valid JSON, the bootstrap returns (it does not throw)
with the auth state it was given, its only possible effect being the error log,
and none at all when it is skipped; `connectToWhatsApp` then constructs exactly
one socket, from the creds and keys that `useMultiFileAuthState` returned, and
throws only if that construction does. -/
theorem bootstrap_failure_atomic (lib : Lib) (env : Env) (creds keys : JSValue)
    (hl : lib.useMultiFileAuthState SESSION_DIR = .ok (creds, keys))
    (hdata : env.SESSION_DATA = none ∨ env.SESSION_DATA = some "" ∨
      ∃ data e, env.SESSION_DATA = some data ∧ data ≠ "" ∧
        lib.jsonParse (lib.bufferFromBase64 data) = .error e) :
    (∀ st, (sessionBootstrap lib env st).outcome = .returned st) ∧
    (∀ st, ∀ eff ∈ (sessionBootstrap lib env st).trace,
      ∃ msg, eff = .log .error ["Error parsing SESSION_DATA:", msg]) ∧
    (env.SESSION_DATA = none ∨ env.SESSION_DATA = some "" →
      ∀ st, (sessionBootstrap lib env st).trace = []) ∧
    Effect.makeWASocket creds keys ∈ (connectToWhatsApp lib env).trace ∧
    (∀ c k, Effect.makeWASocket c k ∈ (connectToWhatsApp lib env).trace → c = creds ∧ k = keys) ∧
    (connectToWhatsApp lib env).outcome =
      (match lib.makeWASocket creds keys with
       | .ok _ => .returned ()
       | .error e => .threw e) := by
  have hboot : ∀ st, sessionBootstrap lib env st = ⟨[], .returned st⟩ ∨
      ∃ msg, sessionBootstrap lib env st
        = ⟨[.log .error ["Error parsing SESSION_DATA:", msg]], .returned st⟩ := by
    intro st
    unfold sessionBootstrap SESSION_DATA
    rcases hdata with h | h | ⟨data, e, h, hne, hp⟩
    · rw [h]; exact Or.inl rfl
    · rw [h]; exact Or.inl rfl
    · rw [h]
      exact Or.inr ⟨e, by simp [hne, hp]⟩
  have hout : ∀ st, (sessionBootstrap lib env st).outcome = .returned st := by
    intro st
    rcases hboot st with h | ⟨msg, h⟩ <;> rw [h]
  obtain ⟨htrace, hend⟩ := connect_loaded lib env creds keys _ hl (hout (AuthState.fresh creds keys))
  refine ⟨hout, ?_, ?_, ?_, ?_, hend⟩
  · intro st eff heff
    rcases hboot st with h | ⟨msg, h⟩
    · rw [h] at heff
      cases heff
    · rw [h] at heff
      exact ⟨msg, by simpa using heff⟩
  · intro hskip st
    unfold sessionBootstrap SESSION_DATA
    rcases hskip with h | h <;> rw [h] <;> rfl
  · rw [htrace]
    simp [AuthState.fresh]
  · intro c k hmem
    rw [htrace] at hmem
    have hc : (AuthState.fresh creds keys).creds = creds := rfl
    have hk : (AuthState.fresh creds keys).keys = keys := rfl
    rw [hc, hk] at hmem
    rcases hboot (AuthState.fresh creds keys) with h | ⟨msg, h⟩ <;>
      rw [h] at hmem <;>
      cases hs : lib.makeWASocket creds keys <;>
      rw [hs] at hmem <;>
      simp at hmem <;>
      exact hmem

/-- Witness of C2: a session text that is not JSON leaves the loaded state as
it is, and the socket is constructed from it. -/
theorem bootstrap_failure_atomic_witness :
    (sessionBootstrap sampleLib brokenSessionEnv (AuthState.fresh sampleCreds sampleKeys)).outcome
      = .returned (AuthState.fresh sampleCreds sampleKeys) ∧
    Effect.makeWASocket sampleCreds sampleKeys
      ∈ (connectToWhatsApp sampleLib brokenSessionEnv).trace :=
  ⟨(bootstrap_failure_atomic sampleLib brokenSessionEnv sampleCreds sampleKeys rfl
      (Or.inr (Or.inr ⟨"b29wcw==", "Unexpected token", rfl, by decide, rfl⟩))).1 _,
   (bootstrap_failure_atomic sampleLib brokenSessionEnv sampleCreds sampleKeys rfl
      (Or.inr (Or.inr ⟨"b29wcw==", "Unexpected token", rfl, by decide, rfl⟩))).2.2.2.1⟩

/-- Claim C3, as the code has it: when `SESSION_DATA` decodes to a JSON object,
the state after the bootstrap is `Object.assign(state, object)`: every key of
the object other than `__proto__` is an own property of the state with the
value of the object, every own property whose key is not in the object is
unchanged, and the socket is constructed from the creds and keys of that
state. -/
theorem bootstrap_restores_fields (lib : Lib) (env : Env) (data : String)
    (ps : List (String × JSValue))
    (hdata : env.SESSION_DATA = some data) (hne : data ≠ "")
    (hparse : lib.jsonParse (lib.bufferFromBase64 data) = .ok (.obj ps))
    (hkeys : (ps.map Prod.fst).Nodup) :
    (∀ st, sessionBootstrap lib env st = ⟨[], .returned (objectAssign st (.obj ps))⟩) ∧
    (∀ st k v, (k, v) ∈ ps → k ≠ "__proto__" → (objectAssign st (.obj ps)).own k = some v) ∧
    (∀ st k, k ∉ ps.map Prod.fst → (objectAssign st (.obj ps)).own k = st.own k) ∧
    (∀ creds keys, lib.useMultiFileAuthState SESSION_DIR = .ok (creds, keys) →
      Effect.makeWASocket (objectAssign (AuthState.fresh creds keys) (.obj ps)).creds
        (objectAssign (AuthState.fresh creds keys) (.obj ps)).keys
        ∈ (connectToWhatsApp lib env).trace) := by
  have hboot : ∀ st, sessionBootstrap lib env st
      = ⟨[], .returned (objectAssign st (.obj ps))⟩ := by
    intro st
    unfold sessionBootstrap SESSION_DATA
    rw [hdata]
    simp [hne, hparse]
  refine ⟨hboot, ?_, ?_, ?_⟩
  · intro st k v hmem hk
    exact own_assign_mem ps st k v hkeys hmem hk
  · intro st k hk
    exact own_assign_notin ps st k hk
  · intro creds keys hl
    have hb : (sessionBootstrap lib env (AuthState.fresh creds keys)).outcome
        = .returned (objectAssign (AuthState.fresh creds keys) (.obj ps)) := by
      rw [hboot]
    rw [(connect_loaded lib env creds keys _ hl hb).1]
    simp

/-- Witness of C3 as amended: the decoded `creds` replaces the loaded one, and
`keys` stays. -/
theorem bootstrap_restores_fields_witness :
    (objectAssign (AuthState.fresh sampleCreds sampleKeys) (.obj [("creds", .num 1)])).own "creds"
      = some (.num 1) ∧
    (objectAssign (AuthState.fresh sampleCreds sampleKeys) (.obj [("creds", .num 1)])).own "keys"
      = some sampleKeys ∧
    Effect.makeWASocket (.num 1) sampleKeys ∈ (connectToWhatsApp sampleLib credsSessionEnv).trace :=
  ⟨(bootstrap_restores_fields sampleLib credsSessionEnv "eyJjcmVkcyI6MX0=" [("creds", .num 1)]
      rfl (by decide) rfl (by decide)).2.1 _ "creds" (.num 1) (by simp) (by decide),
   ((bootstrap_restores_fields sampleLib credsSessionEnv "eyJjcmVkcyI6MX0=" [("creds", .num 1)]
      rfl (by decide) rfl (by decide)).2.2.1 (AuthState.fresh sampleCreds sampleKeys) "keys"
      (by decide)).trans rfl,
   (bootstrap_restores_fields sampleLib credsSessionEnv "eyJjcmVkcyI6MX0=" [("creds", .num 1)]
      rfl (by decide) rfl (by decide)).2.2.2 sampleCreds sampleKeys rfl⟩

/-- Counterexample to C3 as stated: `SESSION_DATA` decodes to the JSON object
with the one key `__proto__` and value 1, and after the bootstrap the state is
the loaded one: it has no own property `__proto__`, and its prototype is the
one it had. -/
theorem bootstrap_proto_counterexample :
    sampleLib.jsonParse (sampleLib.bufferFromBase64 "eyJfX3Byb3RvX18iOjF9")
      = .ok (.obj [("__proto__", .num 1)]) ∧
    sessionBootstrap sampleLib protoSessionEnv (AuthState.fresh sampleCreds sampleKeys)
      = ⟨[], .returned (AuthState.fresh sampleCreds sampleKeys)⟩ ∧
    (AuthState.fresh sampleCreds sampleKeys).own "__proto__" = none ∧
    (objectAssign (AuthState.fresh sampleCreds sampleKeys) (.obj [("__proto__", .num 1)])).own
      "__proto__" ≠ some (.num 1) := by
  refine ⟨rfl, rfl, rfl, ?_⟩
  intro h
  have h2 : (objectAssign (AuthState.fresh sampleCreds sampleKeys)
      (.obj [("__proto__", .num 1)])).own "__proto__" = none := rfl
  rw [h2] at h
  cases h

end NexusBot
